import Mathlib

/-!
Verification of the `pigeon` typed publish/subscribe client
(`src/pigeon/client.py`, `src/pigeon/utils.py`) against its
natural-language specification.

The embedding models the observable behaviour of the core: the topic
registry (`_topics`, `_msg_versions`), outbound header stamping in
`Pigeon.send`, the connect retry loop, inbound dispatch
(`Pigeon._handle_message`, `TEMCommsListener.on_message`) and the
adaptive-arity callback invocation (`call_with_correct_args`).
Python dicts become association lists with insertion-order update
semantics; transport effects (STOMP `send`/`subscribe`/`unsubscribe`)
and dispatch effects (logging, deserialization, callback invocation)
become explicit event traces; raised exceptions become an error value
returned alongside the trace.
-/

namespace PigeonSpec

/-- Python `dict` lookup `d.get(k)` / `k in d`, on an association list. -/
def dictGet (l : List (String × α)) (k : String) : Option α :=
  match l with
  | [] => none
  | kv :: rest => if kv.1 = k then some kv.2 else dictGet rest k

/-- Python `k in d`. -/
def dictContains (l : List (String × α)) (k : String) : Bool :=
  (dictGet l k).isSome

/-- Python `d[k] = v`: replace in place if the key exists, else append. -/
def dictSet (l : List (String × α)) (k : String) (v : α) : List (String × α) :=
  match l with
  | [] => [(k, v)]
  | kv :: rest => if kv.1 = k then (k, v) :: rest else kv :: dictSet rest k v

/-- Python `d.update(m)`: set each key of `m` in turn. -/
def dictUpdate (l m : List (String × α)) : List (String × α) :=
  m.foldl (fun acc kv => dictSet acc kv.1 kv.2) l

theorem dictGet_dictSet (l : List (String × α)) (k k' : String) (v : α) :
    dictGet (dictSet l k v) k' = if k = k' then some v else dictGet l k' := by
  induction l with
  | nil => simp [dictSet, dictGet]
  | cons kv rest ih =>
    by_cases h : kv.1 = k
    · subst h
      by_cases h' : kv.1 = k' <;> simp [dictSet, dictGet, h', ih]
    · by_cases h' : kv.1 = k'
      · subst h'
        rw [if_neg (fun he => h he.symm)]
        simp [dictSet, dictGet, h]
      · simp [dictSet, dictGet, h, h', ih]

theorem dictGet_dictSet_isSome (l : List (String × α)) (k k' : String) (v : α) :
    (dictGet (dictSet l k v) k').isSome = (decide (k = k') || (dictGet l k').isSome) := by
  rw [dictGet_dictSet]
  by_cases h : k = k' <;> simp [h]

theorem dictGet_dictUpdate_isSome (m l : List (String × α)) (k : String) :
    (dictGet (dictUpdate l m) k).isSome
      = ((dictGet l k).isSome || m.any fun kv => decide (kv.1 = k)) := by
  induction m generalizing l with
  | nil => simp [dictUpdate]
  | cons kv rest ih =>
    show (dictGet (dictUpdate (dictSet l kv.1 kv.2) rest) k).isSome = _
    rw [ih, dictGet_dictSet_isSome]
    by_cases h : kv.1 = k <;> simp [h]

/-- Python `del d[k]`: raises `KeyError` when the key is absent. -/
def dictDel (l : List (String × α)) (k : String) : Option (List (String × α)) :=
  match l with
  | [] => none
  | kv :: rest =>
    if kv.1 = k then some rest else (dictDel rest k).map (kv :: ·)

theorem dictDel_eq_none (l : List (String × α)) (k : String) :
    dictDel l k = none ↔ dictGet l k = none := by
  induction l with
  | nil => simp [dictDel, dictGet]
  | cons kv rest ih =>
    by_cases h : kv.1 = k <;> simp [dictDel, dictGet, h, ih]

/-! ### Error model

The repository's `exceptions` module defines these as plain exception
classes; `keyError` stands for Python's built-in `KeyError`, which is
not one of the library's documented exception types. -/

inductive PigeonError where
  | noSuchTopic (topic : String)
  | versionMismatch
  | signatureError
  | connectFailed (lastCauseAttempt : Nat)
  | keyError (key : String)
deriving DecidableEq, Repr

/-! ### Adaptive-arity invocation (`pigeon/utils.py`, `call_with_correct_args`)

A Python callable's signature is modelled as its list of
`inspect.Parameter`s: name, kind, and whether a default is present
(`param.default == param.empty` is `¬ hasDefault`). -/

inductive ParamKind where
  | POSITIONAL_ONLY
  | POSITIONAL_OR_KEYWORD
  | VAR_POSITIONAL
  | KEYWORD_ONLY
  | VAR_KEYWORD
deriving DecidableEq, Repr

structure PyParam where
  name : String
  kind : ParamKind
  hasDefault : Bool
deriving DecidableEq, Repr

/-- Models `num_args` in `call_with_correct_args`: parameters whose default is
empty and whose kind is not `VAR_KEYWORD`. -/
def required_count (params : List PyParam) : Nat :=
  (params.filter fun param =>
    !param.hasDefault && !(param.kind == ParamKind.VAR_KEYWORD)).length

/-- The keyword-filtering second half of `call_with_correct_args`:
if the callable has no `VAR_KEYWORD` collector, drop every keyword
argument whose name is not a parameter with a default. -/
def filter_kwargs (params : List PyParam) (kwargs : List (String × β)) :
    List (String × β) :=
  if params.any fun param => param.kind == ParamKind.VAR_KEYWORD then kwargs
  else
    kwargs.filter fun kv =>
      ((params.filter fun param => param.hasDefault).map PyParam.name).contains kv.1

/-- Models `call_with_correct_args(func, *args, **kwargs)` from `pigeon/utils.py`,
returning the positional and keyword arguments `func` is actually invoked
with, or `SignatureException` when the callable requires more positional
arguments than are available. -/
def call_with_correct_args (params : List PyParam) (args : List α)
    (kwargs : List (String × β)) :
    Except PigeonError (List α × List (String × β)) :=
  if params.any fun param => param.kind == ParamKind.VAR_POSITIONAL then
    .ok (args, filter_kwargs params kwargs)
  else if required_count params > args.length then
    .error PigeonError.signatureError
  else
    .ok (args.take (required_count params), filter_kwargs params kwargs)

theorem filter_kwargs_nil (params : List PyParam) :
    filter_kwargs params ([] : List (String × β)) = [] := by
  simp [filter_kwargs]

/-! ### Client state (`pigeon/client.py`, class `Pigeon`)

A per-topic message class is modelled by its two external codec
operations: construction-from-keyword-fields followed by `.serialize()`
(one function `serialize` from the keyword payload to the wire body),
and the class-level `.deserialize(bytes)`. Bodies and deserialized
message data are opaque strings. -/

structure Schema where
  serialize : List (String × String) → String
  deserialize : String → String

/-- A subscribed callback, characterised by its introspectable
signature (what `inspect.signature(func).parameters` yields). -/
structure Callback where
  params : List PyParam
deriving DecidableEq, Repr

structure PigeonState where
  service : String
  topics : List (String × Schema)
  msgVersions : List (String × String)
  callbacks : List (String × Callback)

/-- Models `Pigeon.__init__`: empty registry and callback map. Entry-point topic
loading (`_load_topics`) is an external source that calls
`register_topics`; it is covered by the register-operation sequences
below. -/
def Pigeon.init (service : String) : PigeonState :=
  { service := service, topics := [], msgVersions := [], callbacks := [] }

/-- Models `Pigeon.register_topic(topic, msg_class, version)`. -/
def Pigeon.register_topic (s : PigeonState) (topic : String)
    (msg_class : Schema) (version : String) : PigeonState :=
  { s with
    topics := dictSet s.topics topic msg_class
    msgVersions := dictSet s.msgVersions topic version }

/-- Models `Pigeon.register_topics(topics, version)`: bulk merge, the same
version for every topic of the batch. -/
def Pigeon.register_topics (s : PigeonState) (topics : List (String × Schema))
    (version : String) : PigeonState :=
  { s with
    topics := dictUpdate s.topics topics
    msgVersions := dictUpdate s.msgVersions (topics.map fun kv => (kv.1, version)) }

/-- Models `Pigeon._ensure_topic_exists`: `NoSuchTopicException` unless the topic
is present in both `_topics` and `_msg_versions`. -/
def Pigeon.ensure_topic_exists (s : PigeonState) (topic : String) :
    Option PigeonError :=
  if !dictContains s.topics topic || !dictContains s.msgVersions topic then
    some (PigeonError.noSuchTopic topic)
  else none

/-- A call made on the external STOMP connection object. -/
inductive TransportAction where
  | send (destination : String) (body : String) (headers : List (String × String))
  | subscribe (destination : String) (id : String)
  | unsubscribe (id : String)
deriving DecidableEq, Repr

/-- Models `get_str_time_ms()`: the clock read `str(int(time.time_ns() / 1e6))`.
The millisecond reading is passed in as `now_ms`; the function renders it
as a string of integer milliseconds. -/
def get_str_time_ms (now_ms : Nat) : String :=
  toString now_ms

/-- Models `Pigeon.send(topic, **data)`: transport actions performed, resulting
state, and the exception raised, if any. -/
def Pigeon.send (s : PigeonState) (topic : String)
    (data : List (String × String)) (now_ms : Nat) :
    List TransportAction × PigeonState × Option PigeonError :=
  match Pigeon.ensure_topic_exists s topic with
  | some e => ([], s, some e)
  | none =>
    match dictGet s.topics topic, dictGet s.msgVersions topic with
    | some msg_class, some version =>
      let serialized_data := msg_class.serialize data
      let headers :=
        [("service", s.service), ("version", version),
         ("sent_at", get_str_time_ms now_ms)]
      ([TransportAction.send topic serialized_data headers], s, none)
    | _, _ => ([], s, some (PigeonError.keyError topic))

/-- Models `Pigeon.subscribe(topic, callback)`: the transport-level subscribe is
issued only when no callback is yet registered for the topic; the
callback is always (re)bound. -/
def Pigeon.subscribe (s : PigeonState) (topic : String) (callback : Callback) :
    List TransportAction × PigeonState × Option PigeonError :=
  match Pigeon.ensure_topic_exists s topic with
  | some e => ([], s, some e)
  | none =>
    let actions :=
      if dictContains s.callbacks topic then []
      else [TransportAction.subscribe topic topic]
    (actions, { s with callbacks := dictSet s.callbacks topic callback }, none)

/-- Models `Pigeon.unsubscribe(topic)`: the transport unsubscribe is issued
before `del self._callbacks[topic]`, which raises `KeyError` when no
callback entry exists. -/
def Pigeon.unsubscribe (s : PigeonState) (topic : String) :
    List TransportAction × PigeonState × Option PigeonError :=
  match Pigeon.ensure_topic_exists s topic with
  | some e => ([], s, some e)
  | none =>
    match dictDel s.callbacks topic with
    | none => ([TransportAction.unsubscribe topic], s, some (PigeonError.keyError topic))
    | some cbs =>
      ([TransportAction.unsubscribe topic], { s with callbacks := cbs }, none)

/-! ### Inbound dispatch (`Pigeon._handle_message`, `TEMCommsListener`) -/

/-- One of the three candidate arguments handed to a callback:
the deserialized message, the topic, and the frame headers. -/
inductive DispatchArg where
  | msg (data : String)
  | topic (t : String)
  | headers (h : List (String × String))
deriving DecidableEq, Repr

/-- Observable steps of handling one inbound frame. -/
inductive DispatchEvent where
  | logged_unregistered (topic : String)
  | deserialized (body : String)
  | invoked (topic : String) (args : List DispatchArg)
      (kwargs : List (String × DispatchArg))
deriving DecidableEq, Repr

/-- An inbound STOMP frame. -/
structure Frame where
  headers : List (String × String)
  body : String
deriving DecidableEq, Repr

/-- Models `Pigeon._handle_message(message_frame)`: dispatch events performed and
the exception raised, if any. `frame.headers["subscription"]` raises
`KeyError` when absent; unregistered topics are logged and dropped; a
version-header mismatch raises `VersionMismatchException` before
deserialization; otherwise the body is deserialized and the registered
callback invoked through `call_with_correct_args`. -/
def Pigeon.handle_message (s : PigeonState) (frame : Frame) :
    List DispatchEvent × Option PigeonError :=
  match dictGet frame.headers "subscription" with
  | none => ([], some (PigeonError.keyError "subscription"))
  | some topic =>
    if !dictContains s.topics topic || !dictContains s.msgVersions topic then
      ([DispatchEvent.logged_unregistered topic], none)
    else if dictGet frame.headers "version" ≠ dictGet s.msgVersions topic then
      ([], some PigeonError.versionMismatch)
    else
      match dictGet s.topics topic with
      | none => ([], some (PigeonError.keyError topic))
      | some msg_class =>
        let message_data := msg_class.deserialize frame.body
        match dictGet s.callbacks topic with
        | none => ([DispatchEvent.deserialized frame.body],
                   some (PigeonError.keyError topic))
        | some cb =>
          match call_with_correct_args cb.params
              [DispatchArg.msg message_data, DispatchArg.topic topic,
               DispatchArg.headers frame.headers]
              ([] : List (String × DispatchArg)) with
          | .error e => ([DispatchEvent.deserialized frame.body], some e)
          | .ok (args, kwargs) =>
            ([DispatchEvent.deserialized frame.body,
              DispatchEvent.invoked topic args kwargs], none)

/-- Models `TEMCommsListener.on_message(frame)`: stamp `recieved_at` (the key as
spelled in the code) onto the frame headers, then hand the frame to the
listener's callback (`Pigeon._handle_message` in the client). -/
def TEMCommsListener.on_message (callback : Frame → γ) (frame : Frame)
    (now_ms : Nat) : γ :=
  callback
    { frame with
      headers := dictSet frame.headers "recieved_at" (get_str_time_ms now_ms) }

/-! ### Connect retry loop (`Pigeon.connect`) -/

/-- Observable steps of the connect loop. -/
inductive ConnectEvent where
  /-- Transport `self._connection.connect(...)` invoked; `n` numbers the attempt from 0. -/
  | attempt (n : Nat)
  /-- Failure logged: Connection failed, attempting to reconnect. -/
  | log_error
  /-- Backoff `time.sleep(1)`. -/
  | sleep (seconds : Nat)
  /-- Success logged: Connected to STOMP server. -/
  | log_connected
deriving DecidableEq, Repr

/-- Body of the `while retries < retry_limit` loop of `Pigeon.connect`.
`attemptOk n` tells whether the transport's n-th connect attempt
succeeds (a failure is `stomp.exception.ConnectFailedException`);
`fuel` bounds the recursion and is at least `retry_limit - retries` at
every call, so the guard `retries < retry_limit` governs termination
exactly as in the source. -/
def connect_loop (attemptOk : Nat → Bool) (retry_limit retries fuel : Nat) :
    List ConnectEvent × Option PigeonError :=
  match fuel with
  | 0 => ([], none)
  | fuel + 1 =>
    if retries < retry_limit then
      if attemptOk retries then
        ([ConnectEvent.attempt retries, ConnectEvent.log_connected], none)
      else if retries + 1 = retry_limit then
        ([ConnectEvent.attempt retries, ConnectEvent.log_error,
          ConnectEvent.sleep 1],
         some (PigeonError.connectFailed retries))
      else
        let rest := connect_loop attemptOk retry_limit (retries + 1) fuel
        (ConnectEvent.attempt retries :: ConnectEvent.log_error ::
          ConnectEvent.sleep 1 :: rest.1, rest.2)
    else ([], none)

/-- Models `Pigeon.connect(username, password, retry_limit)`: the loop starts at
`retries = 0`. Credentials are forwarded opaquely to the transport and
do not influence the control flow modelled here. -/
def Pigeon.connect (attemptOk : Nat → Bool) (retry_limit : Nat) :
    List ConnectEvent × Option PigeonError :=
  connect_loop attemptOk retry_limit 0 retry_limit

/-- The event trace of `n` consecutive failed connect attempts starting
at attempt number `start`. -/
def failEvents (start : Nat) : Nat → List ConnectEvent
  | 0 => []
  | n + 1 =>
    ConnectEvent.attempt start :: ConnectEvent.log_error ::
      ConnectEvent.sleep 1 :: failEvents (start + 1) n

/-! ### Concrete fixtures for witnesses -/

/-- A concrete codec standing in for a Pydantic message class. -/
def demoSchema : Schema :=
  { serialize := fun data =>
      String.intercalate "," (data.map fun kv => kv.1 ++ "=" ++ kv.2)
    deserialize := fun body => body }

/-- A client state with one registered topic and no subscriptions. -/
def demoState : PigeonState :=
  { service := "svc"
    topics := [("orders", demoSchema)]
    msgVersions := [("orders", "1.0")]
    callbacks := [] }

/-! ### Claims -/

/-- C5: for every topic not bound in the registry, `send` raises
`NoSuchTopicError` synchronously, performs no transport action, and
leaves the state unchanged. -/
theorem send_unregistered_topic (s : PigeonState) (topic : String)
    (data : List (String × String)) (now_ms : Nat)
    (h : dictContains s.topics topic = false ∨
         dictContains s.msgVersions topic = false) :
    Pigeon.send s topic data now_ms
      = ([], s, some (PigeonError.noSuchTopic topic)) := by
  unfold Pigeon.send Pigeon.ensure_topic_exists
  rcases h with h | h <;> simp [h]

theorem send_unregistered_topic_witness :
    Pigeon.send demoState "nope" [] 0
      = ([], demoState, some (PigeonError.noSuchTopic "nope")) :=
  send_unregistered_topic demoState "nope" [] 0 (Or.inl (by decide))

/-- C2: an inbound frame for a registered topic whose version header
differs from the registry's bound version raises
`VersionMismatchError`; no deserialization happens and no callback is
invoked (the event trace is empty), and the error is returned, not
swallowed. -/
theorem version_mismatch_raises (s : PigeonState) (frame : Frame)
    (topic version : String)
    (hsub : dictGet frame.headers "subscription" = some topic)
    (ht : dictContains s.topics topic = true)
    (hv : dictGet s.msgVersions topic = some version)
    (hne : dictGet frame.headers "version" ≠ some version) :
    Pigeon.handle_message s frame = ([], some PigeonError.versionMismatch) := by
  unfold Pigeon.handle_message
  rw [hsub]
  have ht' : (dictGet s.topics topic).isSome = true := ht
  obtain ⟨sch, hsch⟩ := Option.isSome_iff_exists.mp ht'
  simp [dictContains, hsch, hv, hne]

theorem version_mismatch_raises_witness :
    Pigeon.handle_message demoState
        (Frame.mk [("subscription", "orders"), ("version", "2.0")] "b")
      = ([], some PigeonError.versionMismatch) :=
  version_mismatch_raises demoState
    (Frame.mk [("subscription", "orders"), ("version", "2.0")] "b")
    "orders" "1.0" (by decide) (by decide) (by decide) (by decide)

/-- C6: a subscribed callback without a variadic positional collector
that requires more than 3 positional arguments makes dispatch raise
`SignatureError` before the callback is invoked: the dispatcher returns
the error for any candidate arguments, and handling a deliverable frame
for that topic deserializes the body but records no invocation. -/
theorem four_required_params_signature_error (s : PigeonState) (frame : Frame)
    (topic version : String) (msg_class : Schema) (cb : Callback)
    (hvp : (cb.params.any fun param =>
      param.kind == ParamKind.VAR_POSITIONAL) = false)
    (hgt : required_count cb.params > 3)
    (hsub : dictGet frame.headers "subscription" = some topic)
    (ht : dictGet s.topics topic = some msg_class)
    (hv : dictGet s.msgVersions topic = some version)
    (hfv : dictGet frame.headers "version" = some version)
    (hcb : dictGet s.callbacks topic = some cb) :
    (∀ (m t : String) (hd : List (String × String)),
      call_with_correct_args cb.params
          [DispatchArg.msg m, DispatchArg.topic t, DispatchArg.headers hd]
          ([] : List (String × DispatchArg))
        = .error PigeonError.signatureError) ∧
    Pigeon.handle_message s frame
      = ([DispatchEvent.deserialized frame.body],
         some PigeonError.signatureError) := by
  have hcall : ∀ (m t : String) (hd : List (String × String)),
      call_with_correct_args cb.params
          [DispatchArg.msg m, DispatchArg.topic t, DispatchArg.headers hd]
          ([] : List (String × DispatchArg))
        = .error PigeonError.signatureError := by
    intro m t hd
    unfold call_with_correct_args
    rw [hvp]
    simp [hgt]
  refine ⟨hcall, ?_⟩
  unfold Pigeon.handle_message
  rw [hsub]
  simp [dictContains, ht, hv, hfv, hcb, hcall]

/-- A callback requiring four positional arguments. -/
def fourParamCallback : Callback :=
  { params :=
      [{ name := "a", kind := ParamKind.POSITIONAL_OR_KEYWORD, hasDefault := false },
       { name := "b", kind := ParamKind.POSITIONAL_OR_KEYWORD, hasDefault := false },
       { name := "c", kind := ParamKind.POSITIONAL_OR_KEYWORD, hasDefault := false },
       { name := "d", kind := ParamKind.POSITIONAL_OR_KEYWORD, hasDefault := false }] }

/-- State `demoState` with `fourParamCallback` subscribed on `"orders"`. -/
def demoState4 : PigeonState :=
  { service := "svc"
    topics := [("orders", demoSchema)]
    msgVersions := [("orders", "1.0")]
    callbacks := [("orders", fourParamCallback)] }

theorem four_required_params_signature_error_witness :
    Pigeon.handle_message demoState4
        (Frame.mk [("subscription", "orders"), ("version", "1.0")] "b")
      = ([DispatchEvent.deserialized "b"], some PigeonError.signatureError) :=
  (four_required_params_signature_error demoState4
    (Frame.mk [("subscription", "orders"), ("version", "1.0")] "b")
    "orders" "1.0" demoSchema fourParamCallback
    (by decide) (by decide) (by decide)
    (by simp [demoState4, dictGet]) (by decide) (by decide) (by decide)).2

/-- C3: for a callback without a variadic positional collector whose
required-positional count is at most 3, the dispatcher truncates the
candidate arguments `(message, topic, headers)` to exactly that count
and invokes with exactly those arguments and no keywords; in particular
a zero-parameter callback is invoked with zero arguments, and a
`(msg, topic)` callback receives exactly those two, never the headers. -/
theorem adaptive_arity_truncation (params : List PyParam) (m t : String)
    (hd : List (String × String))
    (hvp : (params.any fun param =>
      param.kind == ParamKind.VAR_POSITIONAL) = false)
    (hle : required_count params ≤ 3) :
    call_with_correct_args params
        [DispatchArg.msg m, DispatchArg.topic t, DispatchArg.headers hd]
        ([] : List (String × DispatchArg))
      = .ok
          (([DispatchArg.msg m, DispatchArg.topic t,
             DispatchArg.headers hd]).take (required_count params), []) ∧
    (params = [] →
      call_with_correct_args params
          [DispatchArg.msg m, DispatchArg.topic t, DispatchArg.headers hd]
          ([] : List (String × DispatchArg))
        = .ok ([], [])) ∧
    (params =
        [{ name := "msg", kind := ParamKind.POSITIONAL_OR_KEYWORD,
           hasDefault := false },
         { name := "topic", kind := ParamKind.POSITIONAL_OR_KEYWORD,
           hasDefault := false }] →
      call_with_correct_args params
          [DispatchArg.msg m, DispatchArg.topic t, DispatchArg.headers hd]
          ([] : List (String × DispatchArg))
        = .ok ([DispatchArg.msg m, DispatchArg.topic t], [])) := by
  refine ⟨?_, ?_, ?_⟩
  · unfold call_with_correct_args
    rw [hvp]
    rw [if_neg (by simp)]
    rw [if_neg (by simpa using Nat.not_lt.mpr hle)]
    rw [filter_kwargs_nil]
  · intro h
    subst h
    simp [call_with_correct_args, required_count, filter_kwargs]
  · intro h
    subst h
    simp [call_with_correct_args, required_count, filter_kwargs]

theorem adaptive_arity_truncation_witness :
    call_with_correct_args
        [{ name := "msg", kind := ParamKind.POSITIONAL_OR_KEYWORD,
           hasDefault := false },
         { name := "topic", kind := ParamKind.POSITIONAL_OR_KEYWORD,
           hasDefault := false }]
        [DispatchArg.msg "data", DispatchArg.topic "orders",
         DispatchArg.headers []]
        ([] : List (String × DispatchArg))
      = .ok ([DispatchArg.msg "data", DispatchArg.topic "orders"], []) :=
  (adaptive_arity_truncation
    [{ name := "msg", kind := ParamKind.POSITIONAL_OR_KEYWORD,
       hasDefault := false },
     { name := "topic", kind := ParamKind.POSITIONAL_OR_KEYWORD,
       hasDefault := false }]
    "data" "orders" [] (by decide) (by decide)).2.2 rfl

/-- C7: for a registered topic with no existing subscription,
`subscribe(T, cb1)` followed by `subscribe(T, cb2)` issues exactly one
transport-level subscribe (by the first call only), neither call raises,
and cb2 is the single active callback for T afterwards. -/
theorem resubscribe_single_transport_subscribe (s : PigeonState)
    (topic : String) (cb1 cb2 : Callback)
    (ht : dictContains s.topics topic = true)
    (hv : dictContains s.msgVersions topic = true)
    (hcb : dictContains s.callbacks topic = false) :
    (Pigeon.subscribe s topic cb1).1
        = [TransportAction.subscribe topic topic] ∧
    (Pigeon.subscribe s topic cb1).2.2 = none ∧
    (Pigeon.subscribe (Pigeon.subscribe s topic cb1).2.1 topic cb2).1 = [] ∧
    (Pigeon.subscribe (Pigeon.subscribe s topic cb1).2.1 topic cb2).2.2
        = none ∧
    dictGet (Pigeon.subscribe (Pigeon.subscribe s topic cb1).2.1
        topic cb2).2.1.callbacks topic = some cb2 := by
  have ht' : (dictGet s.topics topic).isSome = true := ht
  have hv' : (dictGet s.msgVersions topic).isSome = true := hv
  have hcb' : (dictGet s.callbacks topic).isSome = false := hcb
  simp [Pigeon.subscribe, Pigeon.ensure_topic_exists, dictContains,
    ht', hv', hcb', dictGet_dictSet]

theorem resubscribe_single_transport_subscribe_witness :
    (Pigeon.subscribe demoState "orders" (Callback.mk [])).1
        = [TransportAction.subscribe "orders" "orders"] ∧
    (Pigeon.subscribe demoState "orders" (Callback.mk [])).2.2 = none ∧
    (Pigeon.subscribe
        (Pigeon.subscribe demoState "orders" (Callback.mk [])).2.1
        "orders" fourParamCallback).1 = [] ∧
    (Pigeon.subscribe
        (Pigeon.subscribe demoState "orders" (Callback.mk [])).2.1
        "orders" fourParamCallback).2.2 = none ∧
    dictGet (Pigeon.subscribe
        (Pigeon.subscribe demoState "orders" (Callback.mk [])).2.1
        "orders" fourParamCallback).2.1.callbacks "orders"
        = some fourParamCallback :=
  resubscribe_single_transport_subscribe demoState "orders"
    (Callback.mk []) fourParamCallback (by decide) (by decide) (by decide)

/-- C10: for a topic bound in the registry but with no active
subscription entry, `unsubscribe` issues the transport-level unsubscribe
first and only then fails, with a raw `KeyError` (not one of the
library's documented exception types), leaving the state unchanged. -/
theorem unsubscribe_without_subscription_keyerror (s : PigeonState)
    (topic : String)
    (ht : dictContains s.topics topic = true)
    (hv : dictContains s.msgVersions topic = true)
    (hcb : dictGet s.callbacks topic = none) :
    Pigeon.unsubscribe s topic
      = ([TransportAction.unsubscribe topic], s,
         some (PigeonError.keyError topic)) := by
  have ht' : (dictGet s.topics topic).isSome = true := ht
  have hv' : (dictGet s.msgVersions topic).isSome = true := hv
  have hdel : dictDel s.callbacks topic = none := (dictDel_eq_none _ _).mpr hcb
  simp [Pigeon.unsubscribe, Pigeon.ensure_topic_exists, dictContains,
    ht', hv', hdel]

theorem unsubscribe_without_subscription_keyerror_witness :
    Pigeon.unsubscribe demoState "orders"
      = ([TransportAction.unsubscribe "orders"], demoState,
         some (PigeonError.keyError "orders")) :=
  unsubscribe_without_subscription_keyerror demoState "orders"
    (by decide) (by decide) (by decide)

/-- C1 counterexample: the inbound dispatch path does not stamp a
`received_at` key; the key actually stamped is the misspelled
`recieved_at`. Shown on a concrete frame at clock reading 5. -/
theorem received_at_key_missing_counterexample :
    dictGet (TEMCommsListener.on_message id
        (Frame.mk [("subscription", "orders")] "b") 5).headers
        "received_at" = none ∧
    dictGet (TEMCommsListener.on_message id
        (Frame.mk [("subscription", "orders")] "b") 5).headers
        "recieved_at" = some "5" := by
  decide

/-- C1 (amended): for a registered topic, `send` performs exactly one
transport send with destination the topic, body the schema's
serialization of the payload, and headers exactly
`service`, `version` (the registry's bound version), `sent_at` (string
of integer milliseconds); and on every inbound frame the listener stamps
the key `recieved_at` (a string of integer milliseconds) onto the
frame's headers before the callback is handed the frame. -/
theorem header_wire_contract (s : PigeonState) (topic version : String)
    (msg_class : Schema) (data : List (String × String)) (now_ms : Nat)
    (frame : Frame)
    (ht : dictGet s.topics topic = some msg_class)
    (hv : dictGet s.msgVersions topic = some version) :
    Pigeon.send s topic data now_ms
      = ([TransportAction.send topic (msg_class.serialize data)
            [("service", s.service), ("version", version),
             ("sent_at", get_str_time_ms now_ms)]], s, none) ∧
    dictGet (TEMCommsListener.on_message id frame now_ms).headers
        "recieved_at" = some (get_str_time_ms now_ms) := by
  constructor
  · unfold Pigeon.send Pigeon.ensure_topic_exists
    simp [dictContains, ht, hv]
  · simp [TEMCommsListener.on_message, dictGet_dictSet]

theorem header_wire_contract_witness :
    Pigeon.send demoState "orders" [("id", "5"), ("qty", "2")] 5
      = ([TransportAction.send "orders"
            (demoSchema.serialize [("id", "5"), ("qty", "2")])
            [("service", "svc"), ("version", "1.0"), ("sent_at", "5")]],
         demoState, none) ∧
    dictGet (TEMCommsListener.on_message id
        (Frame.mk [("subscription", "orders")] "b") 5).headers
        "recieved_at" = some "5" :=
  header_wire_contract demoState "orders" "1.0" demoSchema
    [("id", "5"), ("qty", "2")] 5
    (Frame.mk [("subscription", "orders")] "b")
    (by simp [demoState, dictGet]) (by decide)

/-- C9 (amended): an inbound frame whose subscription id is not a topic
bound in the registry is logged and dropped: no deserialization, no
callback invocation, no error. -/
theorem unregistered_subscription_dropped (s : PigeonState) (frame : Frame)
    (topic : String)
    (hsub : dictGet frame.headers "subscription" = some topic)
    (h : dictContains s.topics topic = false ∨
         dictContains s.msgVersions topic = false) :
    Pigeon.handle_message s frame
      = ([DispatchEvent.logged_unregistered topic], none) := by
  unfold Pigeon.handle_message
  rw [hsub]
  rcases h with h | h <;> simp [h]

theorem unregistered_subscription_dropped_witness :
    Pigeon.handle_message demoState
        (Frame.mk [("subscription", "invoices"), ("version", "1.0")] "b")
      = ([DispatchEvent.logged_unregistered "invoices"], none) :=
  unregistered_subscription_dropped demoState
    (Frame.mk [("subscription", "invoices"), ("version", "1.0")] "b")
    "invoices" (by decide) (Or.inl (by decide))

/-- C9 counterexample: a frame for a topic that is bound in the registry
but has no registered callback (no handler) is not logged-and-dropped:
the body is deserialized and the callback lookup fails with a raw
`KeyError`. -/
theorem registered_topic_no_handler_counterexample :
    dictGet demoState.callbacks "orders" = none ∧
    Pigeon.handle_message demoState
        (Frame.mk [("subscription", "orders"), ("version", "1.0")] "b")
      = ([DispatchEvent.deserialized "b"],
         some (PigeonError.keyError "orders")) := by
  constructor
  · decide
  · simp [Pigeon.handle_message, demoState, demoSchema, dictGet, dictContains]

/-! ### Registration sequences (for the registry binding invariant) -/

/-- One call of the public registration API. -/
inductive RegOp where
  | single (topic : String) (msg_class : Schema) (version : String)
  | bulk (topics : List (String × Schema)) (version : String)

def applyRegOp (s : PigeonState) (op : RegOp) : PigeonState :=
  match op with
  | .single topic msg_class version =>
    Pigeon.register_topic s topic msg_class version
  | .bulk topics version => Pigeon.register_topics s topics version

def applyRegOps (s : PigeonState) (ops : List RegOp) : PigeonState :=
  ops.foldl applyRegOp s

/-- The registry binding invariant: the schema mapping and the version
mapping bind exactly the same topics. -/
def RegInvariant (s : PigeonState) : Prop :=
  ∀ t, (dictGet s.topics t).isSome = (dictGet s.msgVersions t).isSome

theorem any_key_map (topics : List (String × Schema)) (version t : String) :
    ((topics.map fun kv => (kv.1, version)).any fun kv => decide (kv.1 = t))
      = topics.any fun kv => decide (kv.1 = t) := by
  induction topics with
  | nil => rfl
  | cons kv rest ih => simp [List.any_cons, ih]

theorem applyRegOp_invariant (s : PigeonState) (op : RegOp)
    (h : RegInvariant s) : RegInvariant (applyRegOp s op) := by
  intro t
  cases op with
  | single topic msg_class version =>
    simp [applyRegOp, Pigeon.register_topic, dictGet_dictSet_isSome, h t]
  | bulk topics version =>
    simp [applyRegOp, Pigeon.register_topics, dictGet_dictUpdate_isSome,
      h t, any_key_map]

theorem ensure_topic_exists_eq_none (s : PigeonState) (t : String) :
    Pigeon.ensure_topic_exists s t = none ↔
      ((dictGet s.topics t).isSome = true ∧
       (dictGet s.msgVersions t).isSome = true) := by
  unfold Pigeon.ensure_topic_exists dictContains
  rcases h1 : (dictGet s.topics t).isSome <;>
    rcases h2 : (dictGet s.msgVersions t).isSome <;> simp [h1, h2]

/-- C8: after any sequence of `register_topic` / `register_topics` calls
from a state satisfying the binding invariant (as the freshly
constructed client does), every topic in the schema mapping has an entry
in the version mapping and vice versa; and `ensure_topic_exists`
succeeds exactly when both a schema and a version are bound. -/
theorem registry_binding_invariant (s : PigeonState) (h : RegInvariant s)
    (ops : List RegOp) :
    RegInvariant (applyRegOps s ops) ∧
    ∀ t, Pigeon.ensure_topic_exists (applyRegOps s ops) t = none ↔
      ((dictGet (applyRegOps s ops).topics t).isSome = true ∧
       (dictGet (applyRegOps s ops).msgVersions t).isSome = true) := by
  have hinv : RegInvariant (applyRegOps s ops) := by
    induction ops generalizing s with
    | nil => exact h
    | cons op rest ih => exact ih (applyRegOp s op) (applyRegOp_invariant s op h)
  exact ⟨hinv, fun t => ensure_topic_exists_eq_none (applyRegOps s ops) t⟩

theorem registry_binding_invariant_witness :
    RegInvariant (applyRegOps (Pigeon.init "svc")
      [RegOp.single "orders" demoSchema "1.0",
       RegOp.bulk [("a", demoSchema), ("b", demoSchema)] "2.0"]) ∧
    ∀ t, Pigeon.ensure_topic_exists (applyRegOps (Pigeon.init "svc")
        [RegOp.single "orders" demoSchema "1.0",
         RegOp.bulk [("a", demoSchema), ("b", demoSchema)] "2.0"]) t = none ↔
      ((dictGet (applyRegOps (Pigeon.init "svc")
          [RegOp.single "orders" demoSchema "1.0",
           RegOp.bulk [("a", demoSchema), ("b", demoSchema)] "2.0"]).topics
          t).isSome = true ∧
       (dictGet (applyRegOps (Pigeon.init "svc")
          [RegOp.single "orders" demoSchema "1.0",
           RegOp.bulk [("a", demoSchema), ("b", demoSchema)] "2.0"]).msgVersions
          t).isSome = true) :=
  registry_binding_invariant (Pigeon.init "svc") (fun _ => rfl)
    [RegOp.single "orders" demoSchema "1.0",
     RegOp.bulk [("a", demoSchema), ("b", demoSchema)] "2.0"]

/-- C4: against a transport whose connect attempt fails every time,
`connect` with `retry_limit = 8` makes exactly 8 attempts with a
1-second sleep between consecutive attempts and raises the
connection-failure error wrapping the cause of the 8th (final) failed
attempt; and a successful attempt `k < 8` stops the retrying after
`k + 1` attempts with no error. -/
theorem connect_retry_exhaustion (attemptOk : Nat → Bool) :
    ((∀ n, attemptOk n = false) →
      Pigeon.connect attemptOk 8
        = (failEvents 0 8, some (PigeonError.connectFailed 7))) ∧
    (∀ k, k < 8 → (∀ n, n < k → attemptOk n = false) →
      attemptOk k = true →
      Pigeon.connect attemptOk 8
        = (failEvents 0 k ++
            [ConnectEvent.attempt k, ConnectEvent.log_connected], none)) := by
  constructor
  · intro h
    simp [Pigeon.connect, connect_loop, failEvents, h]
  · intro k hk hfail hok
    interval_cases k <;>
      simp_all [Pigeon.connect, connect_loop, failEvents]

theorem connect_retry_exhaustion_witness :
    (Pigeon.connect (fun _ => false) 8
       = (failEvents 0 8, some (PigeonError.connectFailed 7))) ∧
    (Pigeon.connect (fun n => n == 2) 8
       = (failEvents 0 2 ++
           [ConnectEvent.attempt 2, ConnectEvent.log_connected], none)) :=
  ⟨(connect_retry_exhaustion (fun _ => false)).1 (fun _ => rfl),
   (connect_retry_exhaustion (fun n => n == 2)).2 2 (by decide)
     (by intro n hn; simp; omega) (by decide)⟩

end PigeonSpec
